import Mathlib

/-!
Shallow embedding of the Videohub media pipeline and streaming engine.

Sources embedded here:
- `backend/src/controllers/videoController.js` (the unnamed controller file):
  `uploadVideo`, `processVideoInBackground`, `getVideoById`, `streamVideo`.
- `backend/src/utils/videoProcessor.js`: `analyzeSensitivity`,
  `getVideoMetadata`, `processVideo`.
- `backend/src/utils/apiResponse.js`: HTTP status constants used by the
  controller (`createdResponse` sends 201).
- `backend/src/models/Video.js`: the record schema (status and sensitivity
  enums, soft-delete flag).
- `frontend/src/services/socketService.js`: the status-channel client
  (`subscribeToVideoUpdates`, `addListener`, the unsubscribe closure).

Conventions of the embedding: JavaScript `null`/`undefined` string fields
become `Option String` (`none`); JS truthiness of a string is modelled by
`jsTruthy` (empty string and `null` are falsy); `parseInt` returning `NaN`
is modelled by `Option Int` with `none` standing for `NaN`; a file on disk
is its byte list; the Mongo store is passed in explicitly as an
`Option VideoRecord`; asynchronous collaborator outcomes (ffprobe, the
thumbnailer, the random draw of the simulated classifier, the presence of
the `global.io` broadcast handle) are inputs to the orchestrator.
-/

/-- `VideoStatus` enum from `models/Video.js`. -/
inductive VideoStatus where
  | uploading
  | processing
  | completed
  | failed
deriving Repr, DecidableEq

/-- `SensitivityStatus` enum from `models/Video.js`. -/
inductive SensitivityStatus where
  | pending
  | safe
  | flagged
deriving Repr, DecidableEq

/-- The video document fields this subsystem reads and writes
(`models/Video.js`).  `uploadedBy` is the owner's user id. -/
structure VideoRecord where
  title : String
  description : String
  filename : String
  originalFilename : String
  filesize : Nat
  mimeType : String
  uploadedBy : String
  organization : Option String
  status : VideoStatus
  sensitivityStatus : SensitivityStatus
  processingProgress : Nat
  duration : Option Nat
  thumbnailPath : Option String
  processingError : Option String
  metaWidth : Option Nat
  metaHeight : Option Nat
  tags : List String
  isPublic : Bool
  isDeleted : Bool
deriving Repr, DecidableEq

/-- The decoded JWT payload used by the gates:
`{ userId, role, organization }`. -/
structure Caller where
  userId : String
  role : String
  organization : Option String
deriving Repr, DecidableEq

/-- JS truthiness of a nullable string: `null`/`undefined` and `""` are
falsy. -/
def jsTruthy (o : Option String) : Bool :=
  match o with
  | none => false
  | some s => !(s == "")

/-- JS `parseInt(s, 10)` on the characters of `s`: skip leading
whitespace, optional sign, then the longest leading digit run; `none`
models `NaN`. -/
def jsParseInt (cs : List Char) : Option Int :=
  let ws := cs.dropWhile Char.isWhitespace
  let signed : Int × List Char :=
    match ws with
    | '-' :: t => (-1, t)
    | '+' :: t => (1, t)
    | t => (1, t)
  let ds := signed.2.takeWhile Char.isDigit
  if ds.isEmpty then none
  else some (signed.1 * (Int.ofNat (ds.foldl (fun a c => a * 10 + (c.toNat - 48)) 0)))

/-- `pat.isPrefixOf cs` as a boolean on character lists. -/
def isPrefixList : List Char → List Char → Bool
  | [], _ => true
  | _ :: _, [] => false
  | p :: ps, c :: cs => p == c && isPrefixList ps cs

/-- Remove the first occurrence of `pat` from `cs`, modelling the JS
`s.replace(/bytes=/, '')` (a non-global regex replaces only the first
match; with no match the string is unchanged). -/
def removeFirst (pat : List Char) : List Char → List Char
  | [] => []
  | c :: t => if isPrefixList pat (c :: t) then (c :: t).drop pat.length
              else c :: removeFirst pat t

/-- JS `String.prototype.split` with a single-character separator. -/
def splitChar (sep : Char) : List Char → List (List Char)
  | [] => [[]]
  | c :: t =>
      if c == sep then [] :: splitChar sep t
      else
        match splitChar sep t with
        | [] => [[c]]
        | h :: r => (c :: h) :: r

/-- `NaN`-propagating subtraction on JS numbers. -/
def jsSub (a b : Option Int) : Option Int :=
  match a, b with
  | some x, some y => some (x - y)
  | _, _ => none

/-- `NaN`-propagating addition on JS numbers. -/
def jsAdd (a b : Option Int) : Option Int :=
  match a, b with
  | some x, some y => some (x + y)
  | _, _ => none

/-- Render a JS number: `none` prints as `NaN` (template literals in the
`Content-Range` header stringify `NaN` this way). -/
def jsNumStr (a : Option Int) : String :=
  match a with
  | none => "NaN"
  | some n => toString n

/-- Range parsing of `streamVideo` (controller lines 684-687):
`parts = range.replace(/bytes=/, '').split('-')`,
`start = parseInt(parts[0], 10)`,
`end = parts[1] ? parseInt(parts[1], 10) : fileSize - 1`. -/
def parseRange (range : String) (fileSize : Int) : Option Int × Option Int :=
  let parts := splitChar '-' (removeFirst "bytes=".toList range.toList)
  let startv := jsParseInt (parts.getD 0 [])
  let endv :=
    match parts.getD 1 [] with
    | [] => some (fileSize - 1)
    | s => jsParseInt s
  (startv, endv)

/-- `fs.createReadStream(path, { start, end })` as a byte slice: Node reads
bytes `start..end` inclusive, clipped at end-of-file; a `NaN`, negative or
inverted bound makes the stream error and deliver no data. -/
def readStreamRange (file : List Nat) (s e : Option Int) : List Nat :=
  match s, e with
  | some a, some b =>
      if a < 0 ∨ b < a then []
      else (file.drop a.toNat).take (b - a + 1).toNat
  | _, _ => []

/-- The response the byte-serving tail of `streamVideo` writes:
status code, `Content-Length`, `Content-Range`, `Accept-Ranges: bytes`
presence, and the served body. -/
structure StreamResponse where
  statusCode : Nat
  contentLength : Option Int
  contentRange : Option String
  acceptRanges : Bool
  body : List Nat
deriving Repr, DecidableEq

/-- Byte-serving tail of `streamVideo` (controller lines 668-700): no
`Range` header gives a 200 with the whole file; otherwise a single
`start-end` pair is parsed and a 206 is written with
`Content-Range: bytes start-end/total` and `chunksize = end - start + 1`
bytes from the file. -/
def serveFile (file : List Nat) (range : Option String) : StreamResponse :=
  let fileSize : Int := Int.ofNat file.length
  match range with
  | none =>
      { statusCode := 200
        contentLength := some fileSize
        contentRange := none
        acceptRanges := false
        body := file }
  | some r =>
      let p := parseRange r fileSize
      let chunksize := jsAdd (jsSub p.2 p.1) (some 1)
      { statusCode := 206
        contentLength := chunksize
        contentRange := some ("bytes " ++ jsNumStr p.1 ++ "-" ++ jsNumStr p.2
          ++ "/" ++ toString fileSize)
        acceptRanges := true
        body := readStreamRange file p.1 p.2 }

/-- STEP 2 of `streamVideo` (controller lines 613-637): admins pass, owners
pass, and otherwise the request is forbidden exactly when
`!video.isPublic && (!decoded.organization || video.organization !==
decoded.organization)`.  `true` means the check passes. -/
def streamAuthz (c : Caller) (v : VideoRecord) : Bool :=
  if c.role == "admin" then true
  else if v.uploadedBy == c.userId then true
  else if !v.isPublic && (!(jsTruthy c.organization) || !(v.organization == c.organization))
    then false
  else true

/-- Outcome of a `streamVideo` request by an authenticated caller.  The two
403 rejections (ownership/visibility at STEP 2, sensitivity at STEP 4)
carry different messages in the code and are kept distinct here. -/
inductive StreamResult where
  | notFound
  | forbiddenAccess
  | notReady
  | forbiddenFlagged
  | fileMissing
  | served (resp : StreamResponse)
deriving Repr, DecidableEq

/-- The HTTP status code each `StreamResult` is sent with. -/
def resultHttpStatus : StreamResult → Nat
  | .notFound => 404
  | .forbiddenAccess => 403
  | .notReady => 400
  | .forbiddenFlagged => 403
  | .fileMissing => 404
  | .served resp => resp.statusCode

/-- `streamVideo` (controller lines 573-711) after JWT verification:
`Video.findById` (no soft-delete filter), STEP 2 authorization, STEP 3
status check, STEP 4 sensitivity check, file existence, then byte serving.
`stored` is the database record for the id, `file` the bytes on disk at
`video.filepath` (`none` models a missing path or `fs.existsSync` false). -/
def streamVideo (c : Caller) (stored : Option VideoRecord)
    (file : Option (List Nat)) (range : Option String) : StreamResult :=
  match stored with
  | none => .notFound
  | some v =>
      if streamAuthz c v = false then .forbiddenAccess
      else if !(v.status == VideoStatus.completed) then .notReady
      else if v.sensitivityStatus == SensitivityStatus.flagged && !(c.role == "admin")
        then .forbiddenFlagged
      else
        match file with
        | none => .fileMissing
        | some bytes => .served (serveFile bytes range)

/-- Outcome of `getVideoById` as far as the claims need it. -/
inductive GetResult where
  | notFound
  | forbidden
  | ok
deriving Repr, DecidableEq

/-- `getVideoById` (controller lines 359-413): the lookup is
`Video.findOne({ _id: id, isDeleted: false })`, so a soft-deleted record is
not found; access requires owner, admin, or same-org *and* public. -/
def getVideoById (c : Caller) (stored : Option VideoRecord) : GetResult :=
  match stored.bind (fun v => if v.isDeleted then none else some v) with
  | none => .notFound
  | some v =>
      let isOwner := v.uploadedBy == c.userId
      let sameOrg := jsTruthy v.organization && (v.organization == c.organization)
      let isAdmin := c.role == "admin"
      if !isOwner && !isAdmin && !(sameOrg && v.isPublic) then .forbidden
      else .ok

/-- The deny-list `UNSAFE_KEYWORDS` of `videoProcessor.js`. -/
def UNSAFE_KEYWORDS : List String :=
  ["nsfw", "explicit", "violence", "attack", "kill", "abuse", "test-flag"]

/-- JS `String.prototype.includes` on character lists. -/
def containsList : List Char → List Char → Bool
  | [], pat => pat.isEmpty
  | c :: t, pat => isPrefixList pat (c :: t) || containsList t pat

/-- `analyzeSensitivity` (`videoProcessor.js` lines 112-153): with no title
and no description the verdict is `safe`; otherwise the lowercased
`title + " " + description` is matched against the deny-list (any hit is
`flagged`); otherwise a simulated random draw (`Math.random() < 0.1`,
passed in as `simFlag`) may still flag; otherwise `safe`. -/
def analyzeSensitivity (title description : String) (simFlag : Bool) : SensitivityStatus :=
  if title = "" ∧ description = "" then .safe
  else if UNSAFE_KEYWORDS.any (fun k =>
      containsList ((title.toList ++ [' '] ++ description.toList).map Char.toLower) k.toList)
    then .flagged
  else if simFlag then .flagged
  else .safe

/-- The ffprobe fields the pipeline consumes. -/
structure ProbeMeta where
  duration : Nat
  width : Option Nat
  height : Option Nat
deriving Repr, DecidableEq

/-- Return value of `processVideo` (`videoProcessor.js` lines 263-275). -/
structure ProcessResult where
  duration : Nat
  thumbnailPath : Option String
  sensitivityStatus : SensitivityStatus
  metaWidth : Option Nat
  metaHeight : Option Nat
deriving Repr, DecidableEq

/-- `getVideoMetadata` (`videoProcessor.js` lines 160-191): an ffprobe
error is rejected as `Failed to read video metadata: <err.message>`;
`probe` is the outcome of the underlying `ffmpeg.ffprobe` call. -/
def getVideoMetadata (probe : Except String ProbeMeta) : Except String ProbeMeta :=
  match probe with
  | .error e => .error ("Failed to read video metadata: " ++ e)
  | .ok m => .ok m

/-- `processVideo` (`videoProcessor.js` lines 241-280): probe the file
(a probe failure is rethrown as `Video processing failed: ...`), then
generate a thumbnail with the failure swallowed (`thumbnailPath` stays
`null`), then classify sensitivity.  `thumb` is the outcome of
`generateThumbnail` and `simFlag` the random draw of this call's
`analyzeSensitivity`. -/
def processVideo (probe : Except String ProbeMeta) (thumb : Except String String)
    (title description : String) (simFlag : Bool) : Except String ProcessResult :=
  match getVideoMetadata probe with
  | .error e => .error ("Video processing failed: " ++ e)
  | .ok m =>
      let thumbnailPath : Option String :=
        match thumb with
        | .ok p => some p
        | .error _ => none
      .ok { duration := m.duration
            thumbnailPath := thumbnailPath
            sensitivityStatus := analyzeSensitivity title description simFlag
            metaWidth := m.width
            metaHeight := m.height }

/-- A `videoStatusUpdate` socket event as emitted by the orchestrator. -/
structure StatusEvent where
  status : String
  progress : Nat
  message : String
deriving Repr, DecidableEq

/-- The collaborator outcomes `processVideoInBackground` depends on:
whether `global.io` is set, `checkFFmpegAvailable()`, the ffprobe and
thumbnailer outcomes, and the two random draws of the simulated
classifier (the controller's own `analyzeSensitivity` call and the one
inside `processVideo`). -/
structure OrchestratorEnv where
  ioAvailable : Bool
  ffmpegAvailable : Bool
  probe : Except String ProbeMeta
  thumb : Except String String
  simFlag1 : Bool
  simFlag2 : Bool

/-- Emit one status event when the broadcast handle is present. -/
def emitIf (io : Bool) (e : StatusEvent) : List StatusEvent :=
  if io then [e] else []

/-- `processVideoInBackground` (controller lines 131-268) on a fetched
record: emit `processing/10`; if FFmpeg is unavailable mark the record
`completed` at progress 100 and stop; otherwise update progress to 30,
run `analyzeSensitivity` and save its verdict, run `processVideo`; a
thrown error marks the record `failed` at progress 0 with
`processingError = error.message` and emits a failure event; on success
update progress to 80, then persist `completed` at 100 with the derived
duration, thumbnail and metadata, emitting the completion event. -/
def processVideoInBackground (v : VideoRecord) (env : OrchestratorEnv) :
    VideoRecord × List StatusEvent :=
  let ev10 := emitIf env.ioAvailable ⟨"processing", 10, "Processing started"⟩
  if env.ffmpegAvailable = false then
    ({ v with status := .completed, processingProgress := 100 },
     ev10 ++ emitIf env.ioAvailable
       ⟨"completed", 100, "Video uploaded (FFmpeg not available for processing)"⟩)
  else
    let ev30 := emitIf env.ioAvailable ⟨"processing", 30, "Extracting metadata..."⟩
    let sens := analyzeSensitivity v.title v.description env.simFlag1
    let vS := { v with processingProgress := 30, sensitivityStatus := sens }
    match processVideo env.probe env.thumb v.title v.description env.simFlag2 with
    | .error e =>
        ({ vS with status := .failed, processingProgress := 0, processingError := some e },
         ev10 ++ ev30 ++ emitIf env.ioAvailable ⟨"failed", 0, "Processing failed: " ++ e⟩)
    | .ok r =>
        let ev80 := emitIf env.ioAvailable ⟨"processing", 80, "Generating thumbnail..."⟩
        let vDone := { vS with
          status := .completed
          duration := some r.duration
          thumbnailPath := r.thumbnailPath
          processingProgress := 100
          metaWidth := r.metaWidth
          metaHeight := r.metaHeight }
        (vDone,
         ev10 ++ ev30 ++ ev80
           ++ emitIf env.ioAvailable ⟨"completed", 100, "Processing complete"⟩)

/-- JS `String.prototype.trim` on character lists (strip whitespace at
both ends). -/
def trimList (cs : List Char) : List Char :=
  ((cs.dropWhile Char.isWhitespace).reverse.dropWhile Char.isWhitespace).reverse

/-- JS `s.trim()` on strings. -/
def jsTrimStr (s : String) : String :=
  String.mk (trimList s.toList)

/-- Tag normalization of `uploadVideo` (controller line 76):
`tags.split(',').map(tag => tag.trim().toLowerCase()).filter(Boolean)`;
an absent `tags` field gives `[]`. -/
def parseTags (tags : Option String) : List String :=
  match tags with
  | none => []
  | some t =>
      (((splitChar ',' t.toList).map
          (fun cs => String.mk ((trimList cs).map Char.toLower))).filter
        (fun s => !(s == "")))

/-- JS `x || null` on a nullable string (an empty string collapses to
`null`), used for `req.user.organization || null`. -/
def jsOrNull (o : Option String) : Option String :=
  match o with
  | none => none
  | some s => if s == "" then none else some s

/-- The `req.file` object multer attaches to an accepted multipart
upload. -/
structure UploadedFile where
  filename : String
  originalname : String
  filepath : String
  size : Nat
  mimetype : String
deriving Repr, DecidableEq

/-- An upload request that already passed the multer middleware (allowed
MIME type, within the size limit): the optional file, the text fields and
the authenticated user. -/
structure UploadReq where
  file : Option UploadedFile
  title : String
  description : Option String
  tags : Option String
  userId : String
  userOrganization : Option String
deriving Repr, DecidableEq

/-- Outcome of `uploadVideo`: a 400 rejection, or the acknowledgment.
`record` is the document as created (`Video.create`), `atResponse` the
document after the immediate `status = PROCESSING; progress = 10` save;
`httpStatus` is the code `createdResponse` sends (`HttpStatus.CREATED`,
201 in `apiResponse.js`), and the `body*` fields are what the response
body reports. -/
inductive UploadOutcome where
  | badRequest (message : String)
  | created (record : VideoRecord) (atResponse : VideoRecord) (httpStatus : Nat)
      (bodyStatus : VideoStatus) (bodyProgress : Nat)
      (bodySensitivity : SensitivityStatus)
deriving Repr, DecidableEq

/-- `uploadVideo` (controller lines 32-123): reject a missing file or a
blank title with 400; otherwise create the record in state `uploading`
with verdict `pending` and progress 0, immediately save
`status = processing, progress = 10`, schedule background processing, and
return `createdResponse` (HTTP 201) reporting the saved record's fields.
The background orchestrator is not awaited: the outcome is fully
determined without an `OrchestratorEnv`. -/
def uploadVideo (req : UploadReq) : UploadOutcome :=
  match req.file with
  | none => .badRequest "No video file uploaded. Please select a video file."
  | some f =>
      if req.title == "" || jsTrimStr req.title == "" then
        .badRequest "Video title is required."
      else
        let created : VideoRecord :=
          { title := jsTrimStr req.title
            description :=
              match req.description with
              | some d => if d == "" then "" else jsTrimStr d
              | none => ""
            filename := f.filename
            originalFilename := f.originalname
            filesize := f.size
            mimeType := f.mimetype
            uploadedBy := req.userId
            organization := jsOrNull req.userOrganization
            status := .uploading
            sensitivityStatus := .pending
            processingProgress := 0
            duration := none
            thumbnailPath := none
            processingError := none
            metaWidth := none
            metaHeight := none
            tags := parseTags req.tags
            isPublic := false
            isDeleted := false }
        let atResponse := { created with status := .processing, processingProgress := 10 }
        .created created atResponse 201 atResponse.status atResponse.processingProgress
          atResponse.sensitivityStatus

/-- HTTP status code of an `uploadVideo` acknowledgment. -/
def uploadHttpStatus : UploadOutcome → Option Nat
  | .created _ _ s _ _ _ => some s
  | .badRequest _ => none

/-- `status` field the `uploadVideo` response body reports. -/
def uploadBodyStatus : UploadOutcome → Option VideoStatus
  | .created _ _ _ st _ _ => some st
  | .badRequest _ => none

/-- `processingProgress` field the `uploadVideo` response body reports. -/
def uploadBodyProgress : UploadOutcome → Option Nat
  | .created _ _ _ _ p _ => some p
  | .badRequest _ => none

/-- State the record was created in (`Video.create`), before the
pre-response save. -/
def uploadCreatedStatus : UploadOutcome → Option VideoStatus
  | .created rec _ _ _ _ _ => some rec.status
  | .badRequest _ => none

/-- Client state of `socketService.js`: whether a socket object exists and
is connected, the socket's own handler registry (`socket.on` appends, all
handlers for an event fire on delivery), the service's `listeners` map
(keyed by event name only), and the `pendingSubscriptions` queue.
Callbacks are identified by numbers. -/
structure SocketState where
  socketExists : Bool
  connected : Bool
  socketHandlers : List (String × Nat)
  listeners : List (String × Nat)
  pending : List (String × Nat)
deriving Repr, DecidableEq

/-- `Map.prototype.get` on the listeners map. -/
def mapGet (m : List (String × Nat)) (k : String) : Option Nat :=
  (m.find? (fun p => p.1 == k)).map (fun p => p.2)

/-- `Map.prototype.set` on the listeners map (overwrites the entry for
`k`). -/
def mapSet (m : List (String × Nat)) (k : String) (v : Nat) : List (String × Nat) :=
  (m.filter (fun p => !(p.1 == k))) ++ [(k, v)]

/-- `addListener` (`socketService.js` lines 88-98): no-op without a
socket; otherwise register a wrapping handler on the socket and remember
it in the `listeners` map under the event name (overwriting any previous
entry for that event). -/
def addListener (s : SocketState) (eventName : String) (cb : Nat) : SocketState :=
  if s.socketExists = false then s
  else
    { s with
      socketHandlers := s.socketHandlers ++ [(eventName, cb)]
      listeners := mapSet s.listeners eventName cb }

/-- The fixed event name `subscribeToVideoUpdates` uses. -/
def videoStatusUpdateEvent : String := "videoStatusUpdate"

/-- `subscribeToVideoUpdates` (`socketService.js` lines 120-135): add the
listener immediately when connected, otherwise queue the subscription
(both the "socket exists but mid-handshake" and the "no socket yet"
branches push onto `pendingSubscriptions`). -/
def subscribeToVideoUpdates (s : SocketState) (cb : Nat) : SocketState :=
  if s.socketExists && s.connected then addListener s videoStatusUpdateEvent cb
  else { s with pending := s.pending ++ [(videoStatusUpdateEvent, cb)] }

/-- The unsubscribe closure returned by `subscribeToVideoUpdates`
(`socketService.js` lines 137-147), capturing `eventName` and the
callback: if a socket exists and the `listeners` map has an entry for the
event name, call `socket.off` with that (possibly replaced) handler and
delete the map entry; then purge pending entries matching both the event
name and the captured callback. -/
def unsubscribeFn (eventName : String) (cb : Nat) (s : SocketState) : SocketState :=
  let s1 :=
    match s.socketExists, mapGet s.listeners eventName with
    | true, some h =>
        { s with
          socketHandlers := s.socketHandlers.filter (fun p => !(p.1 == eventName && p.2 == h))
          listeners := s.listeners.filter (fun p => !(p.1 == eventName)) }
    | _, _ => s
  { s1 with pending := s1.pending.filter (fun p => !(p.1 == eventName && p.2 == cb)) }

/-- `processPendingSubscriptions` (`socketService.js` lines 78-83): drain
the queue in order through `addListener`. -/
def processPendingSubscriptions (s : SocketState) : SocketState :=
  s.pending.foldl (fun a p => addListener a p.1 p.2) { s with pending := [] }

/-- Deliver a server event: every handler registered on the socket for
that event name fires, in registration order. -/
def deliverEvent (s : SocketState) (eventName : String) : List Nat :=
  (s.socketHandlers.filter (fun p => p.1 == eventName)).map (fun p => p.2)

/-- A connected socket service with no listeners. -/
def socketInitialState : SocketState :=
  { socketExists := true, connected := true, socketHandlers := [], listeners := [], pending := [] }

/-- A non-admin caller from organization `orgB`. -/
def cUser : Caller := { userId := "u2", role := "user", organization := some "orgB" }

/-- An admin (elevated) caller. -/
def cAdmin : Caller := { userId := "mod1", role := "admin", organization := none }

/-- A completed, safe, public record owned by `u1` in organization
`orgA`. -/
def vBase : VideoRecord :=
  { title := "demo", description := "", filename := "f.mp4", originalFilename := "o.mp4",
    filesize := 5, mimeType := "video/mp4", uploadedBy := "u1", organization := some "orgA",
    status := .completed, sensitivityStatus := .safe, processingProgress := 100,
    duration := some 10, thumbnailPath := none, processingError := none,
    metaWidth := none, metaHeight := none, tags := [], isPublic := false, isDeleted := false }

/-- `vBase` marked public. -/
def vPublic : VideoRecord := { vBase with isPublic := true }

/-- A private record in the caller `cUser`'s own organization. -/
def vPrivateSameOrg : VideoRecord := { vBase with organization := some "orgB" }

/-- `vPublic` with verdict `flagged`. -/
def vFlagged : VideoRecord := { vPublic with sensitivityStatus := .flagged }

/-- `vPublic` still in state `processing`. -/
def vProcessing : VideoRecord := { vPublic with status := .processing }

/-- `vPublic` with the soft-delete flag set. -/
def vDeleted : VideoRecord := { vPublic with isDeleted := true }

/-- A record as it enters background processing right after upload:
state `processing`, progress 10, verdict `pending`, no derived fields. -/
def vFresh : VideoRecord :=
  { title := "demo", description := "", filename := "abc123.mp4",
    originalFilename := "demo.mp4", filesize := 1000, mimeType := "video/mp4",
    uploadedBy := "u1", organization := none, status := .processing,
    sensitivityStatus := .pending, processingProgress := 10, duration := none,
    thumbnailPath := none, processingError := none, metaWidth := none,
    metaHeight := none, tags := [], isPublic := false, isDeleted := false }

/-- A 1000-byte backing file. -/
def file1000 : List Nat := List.replicate 1000 0

/-- Orchestrator environment in which ffprobe throws. -/
def envProbeFail : OrchestratorEnv :=
  { ioAvailable := true, ffmpegAvailable := true, probe := .error "boom",
    thumb := .error "tb", simFlag1 := false, simFlag2 := false }

/-- Orchestrator environment in which probing succeeds and only thumbnail
generation throws. -/
def envThumbFail : OrchestratorEnv :=
  { envProbeFail with probe := .ok { duration := 10, width := some 1280, height := some 720 } }

/-- Orchestrator environment in which FFmpeg is unavailable. -/
def envNoFFmpeg : OrchestratorEnv :=
  { envProbeFail with ffmpegAvailable := false }

/-- An accepted upload request: a file and a non-blank title. -/
def reqDemo : UploadReq :=
  { file := some { filename := "abc123.mp4", originalname := "demo.mp4",
                   filepath := "uploads/videos/abc123.mp4", size := 1000,
                   mimetype := "video/mp4" },
    title := "demo", description := none, tags := none, userId := "u1",
    userOrganization := none }

/-- Socket trace: subscribe callback 1, run its unsubscribe, then
subscribe a replacement callback 2 for the same event.  Callback 1's
unsubscribe closure is now stale. -/
def socketReplacedState : SocketState :=
  subscribeToVideoUpdates
    (unsubscribeFn videoStatusUpdateEvent 1
      (subscribeToVideoUpdates socketInitialState 1)) 2

/-- C1 (counterexample).  The claim says a non-elevated, non-owner caller
is granted streaming access iff the record is public AND the caller's
organization matches the record's.  Two concrete refutations: a public
record of a different organization is served (claim: forbidden), and a
private record of the caller's own organization is served (claim:
forbidden, since it is not public). -/
theorem c1_counterexample :
    streamVideo cUser (some vPublic) (some [7]) none
      = .served { statusCode := 200, contentLength := some 1, contentRange := none,
                  acceptRanges := false, body := [7] }
    ∧ ¬ streamVideo cUser (some vPublic) (some [7]) none = .forbiddenAccess
    ∧ streamVideo cUser (some vPrivateSameOrg) (some [7]) none
      = .served { statusCode := 200, contentLength := some 1, contentRange := none,
                  acceptRanges := false, body := [7] } := by
  exact ⟨by decide, by decide, by decide⟩

/-- C1 (amended).  For a non-elevated caller who is not the record's
owner, the STEP 2 authorization check passes iff the record is public
**or** the caller's organization is set and equals the record's
organization; when it fails the request is rejected as forbidden, and
when it passes the request is never rejected at that step. -/
theorem c1_theorem (c : Caller) (v : VideoRecord) (file : Option (List Nat))
    (range : Option String) (hrole : ¬ c.role = "admin") (hown : ¬ v.uploadedBy = c.userId) :
    (streamAuthz c v = true
       ↔ (v.isPublic = true ∨ (jsTruthy c.organization = true ∧ v.organization = c.organization)))
    ∧ (streamAuthz c v = false → streamVideo c (some v) file range = .forbiddenAccess)
    ∧ (streamAuthz c v = true → ¬ streamVideo c (some v) file range = .forbiddenAccess) := by
  have h1 : (c.role == "admin") = false := by simp [hrole]
  have h2 : (v.uploadedBy == c.userId) = false := by simp [hown]
  refine ⟨?_, ?_, ?_⟩
  · simp only [streamAuthz, h1, h2]
    cases hp : v.isPublic <;> cases ht : jsTruthy c.organization
      <;> cases he : v.organization == c.organization
      <;> simp_all [beq_iff_eq]
  · intro hauth
    simp [streamVideo, hauth]
  · intro hauth
    simp only [streamVideo, hauth]
    split
    · simp_all
    · split
      · simp
      · cases file <;> split <;> simp

/-- C1 (witness): the amended theorem applied to the non-admin, non-owner
caller `cUser` and the public record `vPublic`. -/
theorem c1_witness :
    (streamAuthz cUser vPublic = true
       ↔ (vPublic.isPublic = true
          ∨ (jsTruthy cUser.organization = true ∧ vPublic.organization = cUser.organization)))
    ∧ (streamAuthz cUser vPublic = false
        → streamVideo cUser (some vPublic) (some [7]) none = .forbiddenAccess)
    ∧ (streamAuthz cUser vPublic = true
        → ¬ streamVideo cUser (some vPublic) (some [7]) none = .forbiddenAccess) :=
  c1_theorem cUser vPublic (some [7]) none (by decide) (by decide)

/-- C2 (counterexample).  The claim says every record whose state is not
`completed` is rejected as not-yet-available for *any* caller; but a
caller who fails the STEP 2 ownership/visibility check on a private
`processing` record is rejected as forbidden instead (the access check
runs before the status check). -/
theorem c2_counterexample :
    streamVideo cUser (some { vBase with status := .processing })
      (some [7]) none = .forbiddenAccess
    ∧ ¬ streamVideo cUser (some { vBase with status := .processing })
      (some [7]) none = .notReady := by
  exact ⟨by decide, by decide⟩

/-- C2 (amended).  On a completed `flagged` record, a non-elevated
caller's request is rejected with HTTP 403 (at STEP 2 or at the STEP 4
sensitivity gate) while an elevated caller's request proceeds to byte
serving; and a record whose state is not `completed` is rejected as
not-yet-available for every caller that passes the access check (every
elevated caller does), while a caller failing the access check gets
forbidden even there. -/
theorem c2_theorem (c : Caller) (v : VideoRecord) (bytes : List Nat)
    (file : Option (List Nat)) (range : Option String) :
    (v.status = .completed → v.sensitivityStatus = .flagged → ¬ c.role = "admin" →
       resultHttpStatus (streamVideo c (some v) file range) = 403)
    ∧ (v.status = .completed → v.sensitivityStatus = .flagged → c.role = "admin" →
       streamVideo c (some v) (some bytes) range = .served (serveFile bytes range))
    ∧ (¬ v.status = .completed → streamAuthz c v = true →
       streamVideo c (some v) file range = .notReady) := by
  refine ⟨?_, ?_, ?_⟩
  · intro h1 h2 h3
    by_cases hauth : streamAuthz c v = true
    · simp [streamVideo, hauth, h1, h2, h3, resultHttpStatus, beq_iff_eq]
    · have hf : streamAuthz c v = false := by simpa using hauth
      simp [streamVideo, hf, resultHttpStatus]
  · intro h1 h2 h3
    have hauth : streamAuthz c v = true := by simp [streamAuthz, h3]
    simp [streamVideo, hauth, h1, h2, h3]
  · intro h1 hauth
    simp [streamVideo, hauth, beq_iff_eq, h1]

/-- C2 (witness): a non-admin on a completed public flagged record gets
403; an admin on the same record is served; an admin on a `processing`
record gets not-ready. -/
theorem c2_witness :
    resultHttpStatus (streamVideo cUser (some vFlagged) (some [7]) none) = 403
    ∧ streamVideo cAdmin (some vFlagged) (some [7]) none = .served (serveFile [7] none)
    ∧ streamVideo cAdmin (some vProcessing) (some [7]) none = .notReady :=
  ⟨(c2_theorem cUser vFlagged [7] (some [7]) none).1 rfl rfl (by decide),
   (c2_theorem cAdmin vFlagged [7] (some [7]) none).2.1 rfl rfl rfl,
   (c2_theorem cAdmin vProcessing [7] (some [7]) none).2.2 (by decide) (by decide)⟩

/-- C3 (confirmed).  On an authorized request for a completed record
backed by a 1000-byte file: no `Range` header gives status 200,
`Content-Length` 1000 and the whole 1000-byte body;
`Range: bytes=0-99` gives status 206, `Content-Range: bytes 0-99/1000`
and exactly the first 100 bytes; `Range: bytes=900-` gives status 206 and
exactly the 100 bytes at offsets 900 through 999. -/
theorem c3_theorem (c : Caller) (v : VideoRecord) (file : List Nat)
    (hrole : c.role = "admin") (hst : v.status = .completed) (hlen : file.length = 1000) :
    streamVideo c (some v) (some file) none
      = .served { statusCode := 200, contentLength := some 1000, contentRange := none,
                  acceptRanges := false, body := file }
    ∧ streamVideo c (some v) (some file) (some "bytes=0-99")
      = .served { statusCode := 206, contentLength := some 100,
                  contentRange := some "bytes 0-99/1000", acceptRanges := true,
                  body := file.take 100 }
    ∧ (file.take 100).length = 100
    ∧ streamVideo c (some v) (some file) (some "bytes=900-")
      = .served { statusCode := 206, contentLength := some 100,
                  contentRange := some "bytes 900-999/1000", acceptRanges := true,
                  body := file.drop 900 }
    ∧ (file.drop 900).length = 100 := by
  have hgate : ∀ r, streamVideo c (some v) (some file) r = .served (serveFile file r) := by
    intro r
    simp [streamVideo, streamAuthz, hrole, hst]
  have h200 : serveFile file none
      = { statusCode := 200, contentLength := some (Int.ofNat file.length),
          contentRange := none, acceptRanges := false, body := file } := rfl
  have h99 : serveFile file (some "bytes=0-99")
      = { statusCode := 206, contentLength := some 100,
          contentRange := some ("bytes 0-99/" ++ toString (Int.ofNat file.length)),
          acceptRanges := true, body := (file.drop 0).take 100 } := rfl
  have h900 : serveFile file (some "bytes=900-")
      = { statusCode := 206,
          contentLength := jsAdd (jsSub (some (Int.ofNat file.length - 1)) (some 900)) (some 1),
          contentRange := some ("bytes 900-" ++ toString (Int.ofNat file.length - 1)
            ++ "/" ++ toString (Int.ofNat file.length)),
          acceptRanges := true,
          body := readStreamRange file (some 900) (some (Int.ofNat file.length - 1)) } := rfl
  have hdl : (file.drop 900).length = 100 := by simp [hlen]
  refine ⟨?_, ?_, ?_, ?_, hdl⟩
  · rw [hgate, h200, hlen]
    rfl
  · rw [hgate, h99, hlen]
    norm_num
    decide
  · simp [hlen]
  · rw [hgate, h900, hlen]
    have hb : readStreamRange file (some 900) (some (Int.ofNat 1000 - 1)) = file.drop 900 := by
      have h1 : readStreamRange file (some 900) (some (Int.ofNat 1000 - 1))
          = (file.drop 900).take 100 := rfl
      rw [h1]
      exact List.take_of_length_le (by simp [hdl])
    rw [hb]
    norm_num [jsAdd, jsSub]
    decide

/-- C3 (witness): the range-correctness theorem applied to the admin
caller, the completed record `vBase` and the 1000-byte file
`file1000`. -/
theorem c3_witness :
    streamVideo cAdmin (some vBase) (some file1000) none
      = .served { statusCode := 200, contentLength := some 1000, contentRange := none,
                  acceptRanges := false, body := file1000 }
    ∧ streamVideo cAdmin (some vBase) (some file1000) (some "bytes=0-99")
      = .served { statusCode := 206, contentLength := some 100,
                  contentRange := some "bytes 0-99/1000", acceptRanges := true,
                  body := file1000.take 100 }
    ∧ (file1000.take 100).length = 100
    ∧ streamVideo cAdmin (some vBase) (some file1000) (some "bytes=900-")
      = .served { statusCode := 206, contentLength := some 100,
                  contentRange := some "bytes 900-999/1000", acceptRanges := true,
                  body := file1000.drop 900 }
    ∧ (file1000.drop 900).length = 100 :=
  c3_theorem cAdmin vBase file1000 rfl rfl (by simp only [file1000, List.length_replicate])

/-- C4 (counterexample).  The claim says a multi-range header is served
exactly like "no range" (200, whole file); on a 5-byte file with
`Range: bytes=0-99,200-299` the code instead writes a 206 with
`Content-Range: bytes 0-99/5` and a declared `Content-Length` of 100. -/
theorem c4_counterexample :
    streamVideo cAdmin (some vBase) (some [10, 20, 30, 40, 50]) (some "bytes=0-99,200-299")
      = .served { statusCode := 206, contentLength := some 100,
                  contentRange := some "bytes 0-99/5", acceptRanges := true,
                  body := [10, 20, 30, 40, 50] }
    ∧ ¬ resultHttpStatus (streamVideo cAdmin (some vBase) (some [10, 20, 30, 40, 50])
          (some "bytes=0-99,200-299")) = 200 := by
  exact ⟨by decide, by decide⟩

/-- C4 (amended).  A multi-range header is *not* treated as "no range":
the server answers 206 for the first range only, taking the end offset
from the leading integer of the second dash-separated field
(`parseInt("99,200") = 99`); an unparseable start (`bytes=abc-`) likewise
produces a 206 attempt whose `Content-Range` start renders as `NaN`, with
`NaN` `Content-Length` and no body bytes, never a 200 whole-file
response. -/
theorem c4_theorem (file : List Nat) :
    (serveFile file (some "bytes=0-99,200-299")).statusCode = 206
    ∧ (serveFile file (some "bytes=0-99,200-299")).body = file.take 100
    ∧ (serveFile file (some "bytes=0-99,200-299")).contentRange
        = some ("bytes 0-99/" ++ toString (Int.ofNat file.length))
    ∧ serveFile file (some "bytes=abc-")
        = { statusCode := 206, contentLength := none,
            contentRange := some ("bytes NaN-" ++ toString (Int.ofNat file.length - 1)
              ++ "/" ++ toString (Int.ofNat file.length)),
            acceptRanges := true, body := [] } :=
  ⟨rfl, rfl, rfl, rfl⟩

/-- Helper: `analyzeSensitivity` only ever returns `safe` or `flagged`,
never `pending`. -/
theorem analyzeSensitivity_ne_pending (t d : String) (b : Bool) :
    ¬ analyzeSensitivity t d b = .pending := by
  unfold analyzeSensitivity
  split_ifs <;> simp

/-- C5 (confirmed).  With the prober available: if probing throws, the
record becomes `failed` with progress 0 and `processingError` set to the
wrapped probe error, the published event statuses are exactly
`processing, processing, failed` (a failure event and no completion
event), and the derived duration/thumbnail fields are untouched; if only
thumbnail generation throws, the record still reaches `completed` with
progress 100 and a null thumbnail handle. -/
theorem c5_theorem (v : VideoRecord) (env : OrchestratorEnv)
    (hff : env.ffmpegAvailable = true) (hio : env.ioAvailable = true) :
    (∀ e, env.probe = .error e →
       (processVideoInBackground v env).1.status = .failed
       ∧ (processVideoInBackground v env).1.processingProgress = 0
       ∧ (processVideoInBackground v env).1.processingError
           = some ("Video processing failed: Failed to read video metadata: " ++ e)
       ∧ (processVideoInBackground v env).1.duration = v.duration
       ∧ (processVideoInBackground v env).1.thumbnailPath = v.thumbnailPath
       ∧ ((processVideoInBackground v env).2.map StatusEvent.status)
           = ["processing", "processing", "failed"])
    ∧ (∀ m te, env.probe = .ok m → env.thumb = .error te →
       (processVideoInBackground v env).1.status = .completed
       ∧ (processVideoInBackground v env).1.processingProgress = 100
       ∧ (processVideoInBackground v env).1.thumbnailPath = none) := by
  constructor
  · intro e he
    simp [processVideoInBackground, hff, hio, he, processVideo, getVideoMetadata, emitIf]
    have hs : "Video processing failed: " ++ "Failed to read video metadata: "
        = "Video processing failed: Failed to read video metadata: " := by decide
    rw [← String.append_assoc, hs]
  · intro m te hm ht
    simp [processVideoInBackground, hff, hio, hm, ht, processVideo, getVideoMetadata, emitIf]

/-- C5 (witness): the failure-policy theorem applied to the fresh record
with a throwing prober (`envProbeFail`) and with a throwing thumbnailer
(`envThumbFail`). -/
theorem c5_witness :
    ((processVideoInBackground vFresh envProbeFail).1.status = .failed
     ∧ (processVideoInBackground vFresh envProbeFail).1.processingProgress = 0
     ∧ (processVideoInBackground vFresh envProbeFail).1.processingError
         = some ("Video processing failed: Failed to read video metadata: " ++ "boom")
     ∧ (processVideoInBackground vFresh envProbeFail).1.duration = vFresh.duration
     ∧ (processVideoInBackground vFresh envProbeFail).1.thumbnailPath = vFresh.thumbnailPath
     ∧ ((processVideoInBackground vFresh envProbeFail).2.map StatusEvent.status)
         = ["processing", "processing", "failed"])
    ∧ ((processVideoInBackground vFresh envThumbFail).1.status = .completed
       ∧ (processVideoInBackground vFresh envThumbFail).1.processingProgress = 100
       ∧ (processVideoInBackground vFresh envThumbFail).1.thumbnailPath = none) :=
  ⟨(c5_theorem vFresh envProbeFail rfl rfl).1 "boom" rfl,
   (c5_theorem vFresh envThumbFail rfl rfl).2
     { duration := 10, width := some 1280, height := some 720 } "tb" rfl rfl⟩

/-- C6 (counterexample).  The claim says the verdict is set to safe or
flagged even when the prober is unavailable; but with FFmpeg unavailable
the orchestrator returns early before classification and the fresh
record's verdict stays `pending`. -/
theorem c6_counterexample :
    (processVideoInBackground vFresh envNoFFmpeg).1.sensitivityStatus = .pending
    ∧ ¬ ((processVideoInBackground vFresh envNoFFmpeg).1.sensitivityStatus = .safe
         ∨ (processVideoInBackground vFresh envNoFFmpeg).1.sensitivityStatus = .flagged) := by
  exact ⟨by decide, by decide⟩

/-- C6 (amended).  When the prober *is* available, classification runs
right after the availability check and progress update and before
probing, so the final verdict equals the classifier's output and is no
longer `pending` even when probing fails; when the prober is unavailable
the early return leaves the verdict untouched (see the
counterexample). -/
theorem c6_theorem (v : VideoRecord) (env : OrchestratorEnv)
    (hff : env.ffmpegAvailable = true) :
    (processVideoInBackground v env).1.sensitivityStatus
      = analyzeSensitivity v.title v.description env.simFlag1
    ∧ ¬ (processVideoInBackground v env).1.sensitivityStatus = .pending := by
  have h : (processVideoInBackground v env).1.sensitivityStatus
      = analyzeSensitivity v.title v.description env.simFlag1 := by
    cases hp : env.probe <;>
      simp [processVideoInBackground, hff, hp, processVideo, getVideoMetadata]
  exact ⟨h, by rw [h]; exact analyzeSensitivity_ne_pending _ _ _⟩

/-- C6 (witness): the amended theorem applied to the fresh record with a
throwing prober — the verdict is still decided. -/
theorem c6_witness :
    (processVideoInBackground vFresh envProbeFail).1.sensitivityStatus
      = analyzeSensitivity vFresh.title vFresh.description envProbeFail.simFlag1
    ∧ ¬ (processVideoInBackground vFresh envProbeFail).1.sensitivityStatus = .pending :=
  c6_theorem vFresh envProbeFail rfl

/-- C7 (confirmed).  When FFmpeg is unavailable, a record whose derived
fields are still null reaches `completed` with progress 100 and the
duration, resolution and thumbnail handle all remain null. -/
theorem c7_theorem (v : VideoRecord) (env : OrchestratorEnv)
    (hff : env.ffmpegAvailable = false) (h1 : v.duration = none)
    (h2 : v.thumbnailPath = none) (h3 : v.metaWidth = none) (h4 : v.metaHeight = none) :
    (processVideoInBackground v env).1.status = .completed
    ∧ (processVideoInBackground v env).1.processingProgress = 100
    ∧ (processVideoInBackground v env).1.duration = none
    ∧ (processVideoInBackground v env).1.thumbnailPath = none
    ∧ (processVideoInBackground v env).1.metaWidth = none
    ∧ (processVideoInBackground v env).1.metaHeight = none := by
  simp [processVideoInBackground, hff, h1, h2, h3, h4]

/-- C7 (witness): the degradation theorem applied to the fresh record and
the FFmpeg-less environment. -/
theorem c7_witness :
    (processVideoInBackground vFresh envNoFFmpeg).1.status = .completed
    ∧ (processVideoInBackground vFresh envNoFFmpeg).1.processingProgress = 100
    ∧ (processVideoInBackground vFresh envNoFFmpeg).1.duration = none
    ∧ (processVideoInBackground vFresh envNoFFmpeg).1.thumbnailPath = none
    ∧ (processVideoInBackground vFresh envNoFFmpeg).1.metaWidth = none
    ∧ (processVideoInBackground vFresh envNoFFmpeg).1.metaHeight = none :=
  c7_theorem vFresh envNoFFmpeg rfl rfl rfl rfl rfl

/-- C8 (counterexample).  On an accepted upload the endpoint answers with
HTTP 201 (Created), not 202 (Accepted), and the body reports state
`processing` (the record was bumped to `processing`/progress 10 before
responding), not `uploading`. -/
theorem c8_counterexample :
    uploadHttpStatus (uploadVideo reqDemo) = some 201
    ∧ ¬ uploadHttpStatus (uploadVideo reqDemo) = some 202
    ∧ uploadBodyStatus (uploadVideo reqDemo) = some .processing
    ∧ ¬ uploadBodyStatus (uploadVideo reqDemo) = some .uploading := by
  exact ⟨by decide, by decide, by decide, by decide⟩

/-- C8 (amended).  Every accepted upload (a file plus a non-blank title)
creates the record in state `uploading`, immediately moves it to
`processing` with progress 10, and — without waiting for background
processing (`uploadVideo` takes no `OrchestratorEnv`) — returns a 201
acknowledgment whose body reports state `processing` and progress 10. -/
theorem c8_theorem (req : UploadReq) (f : UploadedFile)
    (hf : req.file = some f) (ht : ¬ jsTrimStr req.title = "") :
    uploadCreatedStatus (uploadVideo req) = some .uploading
    ∧ uploadHttpStatus (uploadVideo req) = some 201
    ∧ uploadBodyStatus (uploadVideo req) = some .processing
    ∧ uploadBodyProgress (uploadVideo req) = some 10 := by
  have h0 : ¬ req.title = "" := by
    intro h
    exact ht (by rw [h]; rfl)
  simp [uploadVideo, hf, h0, ht, uploadCreatedStatus, uploadHttpStatus,
        uploadBodyStatus, uploadBodyProgress, beq_iff_eq]

/-- C8 (witness): the amended theorem applied to the accepted request
`reqDemo`. -/
theorem c8_witness :
    uploadCreatedStatus (uploadVideo reqDemo) = some .uploading
    ∧ uploadHttpStatus (uploadVideo reqDemo) = some 201
    ∧ uploadBodyStatus (uploadVideo reqDemo) = some .processing
    ∧ uploadBodyProgress (uploadVideo reqDemo) = some 10 :=
  c8_theorem reqDemo
    { filename := "abc123.mp4", originalname := "demo.mp4",
      filepath := "uploads/videos/abc123.mp4", size := 1000, mimetype := "video/mp4" }
    rfl (by decide)

/-- Helper: filtering a list twice with the same predicate equals
filtering it once. -/
theorem filter_self_idem {α : Type} (p : α → Bool) (l : List α) :
    (l.filter p).filter p = l.filter p := by
  induction l with
  | nil => rfl
  | cons a t ih => by_cases h : p a <;> simp [List.filter_cons, h, ih]

/-- Helper: after dropping every entry for event `ev`, the listeners map
has no entry for `ev`. -/
theorem mapGet_filter_ne (m : List (String × Nat)) (ev : String) :
    mapGet (m.filter (fun p => !(p.1 == ev))) ev = none := by
  induction m with
  | nil => rfl
  | cons a t ih =>
    by_cases h : a.1 == ev
    · simp only [List.filter_cons, h, Bool.not_true]
      exact ih
    · simp only [List.filter_cons, h, Bool.not_false, if_true, mapGet, List.find?_cons, h,
        Bool.false_eq_true, if_false]
      exact ih

/-- C9 (counterexample).  The claim says a stale unsubscribe never removes
a replacement listener registered afterwards for the same event; but the
`listeners` map is keyed by event name only, so after subscribing
callback 1, unsubscribing it and subscribing replacement callback 2,
running callback 1's stale unsubscribe again removes callback 2: event
delivery drops from `[2]` to `[]`. -/
theorem c9_counterexample :
    deliverEvent socketReplacedState videoStatusUpdateEvent = [2]
    ∧ deliverEvent (unsubscribeFn videoStatusUpdateEvent 1 socketReplacedState)
        videoStatusUpdateEvent = [] := by
  exact ⟨by decide, by decide⟩

/-- C9 (amended).  The unsubscribe closure is idempotent and total
(calling it again — including with no socket — is a no-op beyond the
pending-queue purge, so it never throws), and it purges pending entries
matching both the event name and the captured callback; but when the
socket exists and *some* handler is registered for the event name, the
closure removes that currently-registered handler and the map entry
regardless of which callback it captured — so a stale unsubscribe does
remove a replacement listener for the same event. -/
theorem c9_theorem (ev : String) (cb h : Nat) (s : SocketState) :
    unsubscribeFn ev cb (unsubscribeFn ev cb s) = unsubscribeFn ev cb s
    ∧ (unsubscribeFn ev cb s).pending
        = s.pending.filter (fun p => !(p.1 == ev && p.2 == cb))
    ∧ (s.socketExists = true → mapGet s.listeners ev = some h →
        mapGet (unsubscribeFn ev cb s).listeners ev = none
        ∧ (unsubscribeFn ev cb s).socketHandlers
            = s.socketHandlers.filter (fun p => !(p.1 == ev && p.2 == h))) := by
  refine ⟨?_, ?_, ?_⟩
  · cases hse : s.socketExists <;> cases hg : mapGet s.listeners ev <;>
      simp [unsubscribeFn, hse, hg, mapGet_filter_ne, filter_self_idem]
  · cases hse : s.socketExists <;> cases hg : mapGet s.listeners ev <;>
      simp [unsubscribeFn, hse, hg]
  · intro hse hget
    simp [unsubscribeFn, hse, hget, mapGet_filter_ne]

/-- C9 (witness): the amended theorem applied to the stale-unsubscribe
state `socketReplacedState` (captured callback 1, registered handler
2). -/
theorem c9_witness :
    unsubscribeFn videoStatusUpdateEvent 1
        (unsubscribeFn videoStatusUpdateEvent 1 socketReplacedState)
      = unsubscribeFn videoStatusUpdateEvent 1 socketReplacedState
    ∧ (unsubscribeFn videoStatusUpdateEvent 1 socketReplacedState).pending
        = socketReplacedState.pending.filter
            (fun p => !(p.1 == videoStatusUpdateEvent && p.2 == 1))
    ∧ (mapGet (unsubscribeFn videoStatusUpdateEvent 1 socketReplacedState).listeners
          videoStatusUpdateEvent = none
       ∧ (unsubscribeFn videoStatusUpdateEvent 1 socketReplacedState).socketHandlers
           = socketReplacedState.socketHandlers.filter
               (fun p => !(p.1 == videoStatusUpdateEvent && p.2 == 2))) :=
  ⟨(c9_theorem videoStatusUpdateEvent 1 2 socketReplacedState).1,
   (c9_theorem videoStatusUpdateEvent 1 2 socketReplacedState).2.1,
   (c9_theorem videoStatusUpdateEvent 1 2 socketReplacedState).2.2 (by decide) (by decide)⟩

/-- C10 (confirmed).  `streamVideo` looks the record up with
`Video.findById` and never consults `isDeleted`, so a soft-deleted,
completed, access-permitted record is still served; the metadata read
path `getVideoById` filters on `isDeleted: false` and reports the same
record as not found. -/
theorem c10_theorem (c : Caller) (v : VideoRecord) (bytes : List Nat) (range : Option String)
    (hdel : v.isDeleted = true) (hst : v.status = .completed)
    (hauth : streamAuthz c v = true)
    (hflag : v.sensitivityStatus = .flagged → c.role = "admin") :
    streamVideo c (some v) (some bytes) range = .served (serveFile bytes range)
    ∧ getVideoById c (some v) = .notFound := by
  constructor
  · by_cases hfl : v.sensitivityStatus = .flagged
    · have hadm : c.role = "admin" := hflag hfl
      simp [streamVideo, hauth, hst, hfl, hadm]
    · simp [streamVideo, hauth, hst, beq_iff_eq, hfl]
  · simp [getVideoById, hdel]

/-- C10 (witness): the soft-delete divergence applied to the admin caller
and the soft-deleted record `vDeleted`. -/
theorem c10_witness :
    streamVideo cAdmin (some vDeleted) (some [7]) none = .served (serveFile [7] none)
    ∧ getVideoById cAdmin (some vDeleted) = .notFound :=
  c10_theorem cAdmin vDeleted [7] none rfl rfl rfl (fun _ => rfl)
